import Mathlib

/-!
Verification development for the Prompt Evolver agent (src/app/page.tsx).

The component state of the `Home` React component is embedded as the
structure `AgentState`; the event handlers `handleFeedback`,
`handleAgentDeath`, `optimizeAgentBrain` and `generatePrompt` are embedded
as pure state transformers.  The asynchronous `fetch` calls are modelled by
an explicit response parameter: `Except.error` stands for a transport
error (the `catch` path), `Except.ok none` for a response without a text
candidate, and `Except.ok (some t)` for a response carrying the text `t`.
JavaScript truthiness tests on strings (`if (newInstruction)`,
`x || "fallback"`) are embedded as emptiness tests.  Scores are embedded
as rationals; `parseFloat(x.toFixed(2))` is embedded as rounding to two
decimal places (all scores arising in the program are multiples of 1/10,
so the tie-breaking convention of `toFixed` is immaterial).
-/

namespace ImageAgent

/-- Embeds the `HistoryItem` interface (page.tsx lines 11-17). -/
structure HistoryItem where
  concept : String
  prompt : String
  feedback : String
  scoreChange : ℚ
  timestamp : String
deriving DecidableEq

/-- The two optimization modes, `'panic' | 'hubris'` (page.tsx line 21). -/
inductive Mode where
  | panic : Mode
  | hubris : Mode
deriving DecidableEq

/-- Embeds the `MutationLog` interface (page.tsx lines 19-26). -/
structure MutationLog where
  gen : ℕ
  mode : Mode
  score : ℚ
  timestamp : String
  oldInstruction : String
  newInstruction : String
deriving DecidableEq

/-- Embeds the `GraveyardItem` interface (page.tsx lines 28-35). -/
structure GraveyardItem where
  generation : ℕ
  finalScore : ℚ
  causeOfDeath : String
  livedAt : String
  bestPrompt : String
  finalInstruction : String
deriving DecidableEq

/-- Embeds the `DEFAULT_SYSTEM_INSTRUCTION` constant (page.tsx lines 44-47). -/
def DEFAULT_SYSTEM_INSTRUCTION : String :=
  "You are an expert Image Prompt Engineer. \nYour goal is to take a simple concept and convert it into a highly detailed, artistic, and technical image generation prompt (for Midjourney/Flux/DALL-E).\nFocus on lighting, texture, camera angles, and artistic style. \nKeep the prompt under 60 words but dense with descriptors."

/-- `STARTING_SCORE = 7.0` (page.tsx line 49). -/
def STARTING_SCORE : ℚ := 7

/-- `DEATH_THRESHOLD = 5.0` (page.tsx line 50). -/
def DEATH_THRESHOLD : ℚ := 5

/-- `PANIC_THRESHOLD = 6.0` (page.tsx line 51). -/
def PANIC_THRESHOLD : ℚ := 6

/-- `HUBRIS_THRESHOLD = 8.5` (page.tsx line 52). -/
def HUBRIS_THRESHOLD : ℚ := 17 / 2

/-- The mutable component state of `Home` (page.tsx lines 124-139).
UI-only fields that none of the state machine reads (`activeTab`,
`selectedLog`) are omitted. -/
structure AgentState where
  apiKey : String
  userConcept : String
  generatedPrompt : String
  isGenerating : Bool
  optimizationState : Option Mode
  feedbackGiven : Bool
  copied : Bool
  agentScore : ℚ
  agentGeneration : ℕ
  systemInstruction : String
  history : List HistoryItem
  graveyard : List GraveyardItem
  mutationLog : List MutationLog
deriving DecidableEq

/-- Embeds `parseFloat((x).toFixed(2))`: round to two decimal places
(page.tsx line 235). -/
def round2 (q : ℚ) : ℚ := (⌊100 * q + 1 / 2⌋ : ℚ) / 100

/-- The delta bound to a feedback label by the `switch` in `handleFeedback`
(page.tsx lines 227-233); unrecognized labels fall through to delta 0. -/
def deltaOf (ty : String) : ℚ :=
  if ty = "blocked" then -(1 / 2)
  else if ty = "bad" then -(1 / 2)
  else if ty = "good" then 3 / 10
  else if ty = "excellent" then 3 / 10
  else 0

/-- The feedback text bound to a label by the same `switch`
(page.tsx lines 227-233); unrecognized labels leave it `""`. -/
def feedbackTextOf (ty : String) : String :=
  if ty = "blocked" then "Blocked by safety filters."
  else if ty = "bad" then "Unsatisfactory image."
  else if ty = "good" then "Satisfactory image."
  else if ty = "excellent" then "Exceeded expectations."
  else ""

/-- The history slice relevant to a mutation mode
(`currentHistory.filter(...)`, page.tsx lines 145-147). -/
def relevantHistoryFor (mode : Mode) (currentHistory : List HistoryItem) :
    List HistoryItem :=
  currentHistory.filter fun h =>
    if mode = Mode.panic then decide (h.scoreChange < 0)
    else decide (h.scoreChange > 0)

/-- Embeds `optimizeAgentBrain` (page.tsx lines 141-219).  The network
response is the parameter `resp`; the directive (`metaPrompt`) only flows
into the request payload, so it is absorbed into `resp`.  The
`if (newInstruction)` truthiness test makes an empty returned text behave
like a missing one.  All exit paths after the in-flight flag is raised
clear it again (`finally`/early returns in the source). -/
def optimizeAgentBrain (currentScore : ℚ) (currentHistory : List HistoryItem)
    (mode : Mode) (resp : Except Unit (Option String)) (now : String)
    (s : AgentState) : AgentState :=
  if s.apiKey = "" then s
  else
    let s1 := { s with optimizationState := some mode }
    let relevantHistory := relevantHistoryFor mode currentHistory
    if relevantHistory = [] then { s1 with optimizationState := none }
    else
      match resp with
      | Except.error _ => { s1 with optimizationState := none }
      | Except.ok none => { s1 with optimizationState := none }
      | Except.ok (some newInstruction) =>
        if newInstruction = "" then { s1 with optimizationState := none }
        else
          { s1 with
            systemInstruction := newInstruction
            mutationLog :=
              { gen := s1.agentGeneration
                mode := mode
                score := currentScore
                timestamp := now
                oldInstruction := s1.systemInstruction
                newInstruction := newInstruction } :: s1.mutationLog
            optimizationState := none }

/-- Embeds `handleAgentDeath` (page.tsx lines 261-284): archive a
graveyard record, then (after the timeout) perform the full respawn
reset.  The JS `x || fallback` idioms on `causeOfDeath` and `bestPrompt`
are embedded as emptiness tests. -/
def handleAgentDeath (finalScore : ℚ) (finalHistory : List HistoryItem)
    (now : String) (s : AgentState) : AgentState :=
  let causeOfDeath :=
    match finalHistory.head? with
    | some h => if h.feedback = "" then "Unknown" else h.feedback
    | none => "Unknown"
  let bestPrompt :=
    match finalHistory.find? (fun h => decide (h.scoreChange > 0)) with
    | some h => if h.prompt = "" then "None" else h.prompt
    | none => "None"
  let graveMarker : GraveyardItem :=
    { generation := s.agentGeneration
      finalScore := finalScore
      causeOfDeath := causeOfDeath
      livedAt := now
      bestPrompt := bestPrompt
      finalInstruction := s.systemInstruction }
  { s with
    graveyard := graveMarker :: s.graveyard
    agentScore := STARTING_SCORE
    agentGeneration := s.agentGeneration + 1
    history := []
    mutationLog := []
    generatedPrompt := ""
    userConcept := ""
    feedbackGiven := false
    systemInstruction := DEFAULT_SYSTEM_INSTRUCTION }

/-- Embeds `handleFeedback` (page.tsx lines 221-259).  `resp` is the
response the (at most one) triggered `optimizeAgentBrain` call would
receive.  The death check returns early; the panic and hubris checks are
two sequential non-exclusive `if` statements, exactly as in the source. -/
def handleFeedback (ty now : String) (resp : Except Unit (Option String))
    (s : AgentState) : AgentState :=
  if s.feedbackGiven then s
  else
    let delta := deltaOf ty
    let newScore := round2 (s.agentScore + delta)
    let newHistoryItem : HistoryItem :=
      { concept := s.userConcept
        prompt := s.generatedPrompt
        feedback := feedbackTextOf ty
        scoreChange := delta
        timestamp := now }
    let updatedHistory := (newHistoryItem :: s.history).take 5
    let s1 := { s with
      agentScore := newScore
      history := updatedHistory
      feedbackGiven := true }
    if newScore ≤ DEATH_THRESHOLD then
      handleAgentDeath newScore updatedHistory now s1
    else
      let s2 :=
        if newScore ≤ PANIC_THRESHOLD ∧ delta < 0 then
          optimizeAgentBrain newScore updatedHistory Mode.panic resp now s1
        else s1
      if HUBRIS_THRESHOLD ≤ newScore ∧ 0 < delta then
        optimizeAgentBrain newScore updatedHistory Mode.hubris resp now s2
      else s2

/-- Embeds `generatePrompt` (page.tsx lines 286-329).  The response is the
parameter `resp`: `Except.error msg` covers both a `data.error` payload and
a transport failure (both reach the `catch` block, whose message is
`error.message || "Unknown error"`); `Except.ok` carries the optional text
candidate, with `text || "Error"` embedded as an emptiness test. -/
def generatePrompt (resp : Except String (Option String))
    (s : AgentState) : AgentState :=
  if s.apiKey = "" then s
  else if s.userConcept = "" then s
  else
    let s1 := { s with isGenerating := true, feedbackGiven := false, copied := false }
    let s2 :=
      match resp with
      | Except.error msg =>
        { s1 with generatedPrompt :=
            "API Error: " ++ (if msg = "" then "Unknown error" else msg) }
      | Except.ok (some text) =>
        { s1 with generatedPrompt := if text = "" then "Error" else text }
      | Except.ok none => { s1 with generatedPrompt := "Error" }
    { s2 with isGenerating := false }

/-! ## Helper lemmas -/

/-- Rounding to two decimal places is the identity on multiples of 1/100. -/
lemma round2_hundredths (k : ℤ) : round2 ((k : ℚ) / 100) = (k : ℚ) / 100 := by
  unfold round2
  have h1 : (100 : ℚ) * ((k : ℚ) / 100) + 1 / 2 = (k : ℚ) + 1 / 2 := by ring
  have h3 : ⌊(1 / 2 : ℚ)⌋ = 0 := by
    rw [Int.floor_eq_zero_iff]
    constructor <;> norm_num
  rw [h1, Int.floor_int_add k (1 / 2), h3]
  norm_num

/-- `optimizeAgentBrain` only touches `systemInstruction`, `mutationLog`
and `optimizationState`. -/
lemma optimizeAgentBrain_preserves (c : ℚ) (hist : List HistoryItem) (m : Mode)
    (resp : Except Unit (Option String)) (now : String) (s : AgentState) :
    (optimizeAgentBrain c hist m resp now s).history = s.history ∧
    (optimizeAgentBrain c hist m resp now s).userConcept = s.userConcept ∧
    (optimizeAgentBrain c hist m resp now s).generatedPrompt = s.generatedPrompt ∧
    (optimizeAgentBrain c hist m resp now s).agentGeneration = s.agentGeneration ∧
    (optimizeAgentBrain c hist m resp now s).agentScore = s.agentScore ∧
    (optimizeAgentBrain c hist m resp now s).feedbackGiven = s.feedbackGiven ∧
    (optimizeAgentBrain c hist m resp now s).graveyard = s.graveyard ∧
    (optimizeAgentBrain c hist m resp now s).apiKey = s.apiKey := by
  rcases resp with e | (_ | t) <;>
    simp only [optimizeAgentBrain] <;>
    split_ifs <;>
    simp

/-- A second feedback on the same pending prompt hits the
`if (feedbackGiven) return` guard. -/
lemma handleFeedback_given (ty now : String) (resp : Except Unit (Option String))
    (s : AgentState) (h : s.feedbackGiven = true) :
    handleFeedback ty now resp s = s := by
  unfold handleFeedback
  simp [h]

/-- Whatever the mode and response, `optimizeAgentBrain` at most rewrites
`systemInstruction`, `mutationLog` and `optimizationState`. -/
lemma optimizeAgentBrain_eq (c : ℚ) (hist : List HistoryItem) (m : Mode)
    (resp : Except Unit (Option String)) (now : String) (s : AgentState) :
    ∃ instr mlog ost, optimizeAgentBrain c hist m resp now s =
      { s with systemInstruction := instr, mutationLog := mlog,
               optimizationState := ost } := by
  rcases resp with e | (_ | t) <;>
    simp only [optimizeAgentBrain] <;>
    split_ifs <;>
    exact ⟨_, _, _, rfl⟩

/-- The `FeedbackRecord` built by an accepted feedback submission
(page.tsx lines 238-244). -/
def feedbackItem (ty now : String) (s : AgentState) : HistoryItem :=
  { concept := s.userConcept
    prompt := s.generatedPrompt
    feedback := feedbackTextOf ty
    scoreChange := deltaOf ty
    timestamp := now }

/-- The ledger effect of an accepted feedback, before any reactive path
runs: new rounded score, record prepended to the bounded buffer, guard
closed (page.tsx lines 235-247). -/
def postFeedbackState (ty now : String) (s : AgentState) : AgentState :=
  { s with
    agentScore := round2 (s.agentScore + deltaOf ty)
    history := (feedbackItem ty now s :: s.history).take 5
    feedbackGiven := true }

/-- Unfolding of an accepted feedback: the early-returning death check,
then the two sequential reactive `if` statements of the source. -/
lemma handleFeedback_unfold (ty now : String) (resp : Except Unit (Option String))
    (s : AgentState) (h : s.feedbackGiven = false) :
    handleFeedback ty now resp s =
      if round2 (s.agentScore + deltaOf ty) ≤ DEATH_THRESHOLD then
        handleAgentDeath (round2 (s.agentScore + deltaOf ty))
          ((feedbackItem ty now s :: s.history).take 5) now
          (postFeedbackState ty now s)
      else
        if HUBRIS_THRESHOLD ≤ round2 (s.agentScore + deltaOf ty) ∧ 0 < deltaOf ty then
          optimizeAgentBrain (round2 (s.agentScore + deltaOf ty))
            ((feedbackItem ty now s :: s.history).take 5) Mode.hubris resp now
            (if round2 (s.agentScore + deltaOf ty) ≤ PANIC_THRESHOLD ∧ deltaOf ty < 0 then
              optimizeAgentBrain (round2 (s.agentScore + deltaOf ty))
                ((feedbackItem ty now s :: s.history).take 5) Mode.panic resp now
                (postFeedbackState ty now s)
            else postFeedbackState ty now s)
        else
          if round2 (s.agentScore + deltaOf ty) ≤ PANIC_THRESHOLD ∧ deltaOf ty < 0 then
            optimizeAgentBrain (round2 (s.agentScore + deltaOf ty))
              ((feedbackItem ty now s :: s.history).take 5) Mode.panic resp now
              (postFeedbackState ty now s)
          else postFeedbackState ty now s := by
  simp only [handleFeedback, postFeedbackState, feedbackItem, h, Bool.false_eq_true,
    if_false]

/-- An accepted feedback whose new score is at or below the death
threshold takes exactly the `handleAgentDeath` path. -/
lemma handleFeedback_death_eq (ty now : String) (resp : Except Unit (Option String))
    (s : AgentState) (h : s.feedbackGiven = false)
    (hd : round2 (s.agentScore + deltaOf ty) ≤ DEATH_THRESHOLD) :
    handleFeedback ty now resp s =
      handleAgentDeath (round2 (s.agentScore + deltaOf ty))
        ((feedbackItem ty now s :: s.history).take 5) now
        (postFeedbackState ty now s) := by
  rw [handleFeedback_unfold ty now resp s h, if_pos hd]

/-- An accepted feedback whose new score stays above the death threshold
updates score, history and the guard, and beyond that at most rewrites the
three mutation-owned fields. -/
lemma handleFeedback_not_death (ty now : String) (resp : Except Unit (Option String))
    (s : AgentState) (h : s.feedbackGiven = false)
    (hnd : ¬ round2 (s.agentScore + deltaOf ty) ≤ DEATH_THRESHOLD) :
    ∃ instr mlog ost, handleFeedback ty now resp s =
      { postFeedbackState ty now s with
        systemInstruction := instr
        mutationLog := mlog
        optimizationState := ost } := by
  rw [handleFeedback_unfold ty now resp s h, if_neg hnd]
  split_ifs with hh hp hp
  · obtain ⟨i1, m1, o1, e1⟩ := optimizeAgentBrain_eq (round2 (s.agentScore + deltaOf ty))
      ((feedbackItem ty now s :: s.history).take 5) Mode.panic resp now
      (postFeedbackState ty now s)
    obtain ⟨i2, m2, o2, e2⟩ := optimizeAgentBrain_eq (round2 (s.agentScore + deltaOf ty))
      ((feedbackItem ty now s :: s.history).take 5) Mode.hubris resp now
      (optimizeAgentBrain (round2 (s.agentScore + deltaOf ty))
        ((feedbackItem ty now s :: s.history).take 5) Mode.panic resp now
        (postFeedbackState ty now s))
    rw [e2, e1]
    exact ⟨_, _, _, rfl⟩
  · obtain ⟨i2, m2, o2, e2⟩ := optimizeAgentBrain_eq (round2 (s.agentScore + deltaOf ty))
      ((feedbackItem ty now s :: s.history).take 5) Mode.hubris resp now
      (postFeedbackState ty now s)
    rw [e2]
    exact ⟨_, _, _, rfl⟩
  · obtain ⟨i1, m1, o1, e1⟩ := optimizeAgentBrain_eq (round2 (s.agentScore + deltaOf ty))
      ((feedbackItem ty now s :: s.history).take 5) Mode.panic resp now
      (postFeedbackState ty now s)
    rw [e1]
    exact ⟨_, _, _, rfl⟩
  · exact ⟨_, _, _, rfl⟩

/-- One feedback application changes the generation by 0 or exactly 1. -/
lemma handleFeedback_generation (ty now : String) (resp : Except Unit (Option String))
    (s : AgentState) :
    (handleFeedback ty now resp s).agentGeneration = s.agentGeneration ∨
    (handleFeedback ty now resp s).agentGeneration = s.agentGeneration + 1 := by
  by_cases h : s.feedbackGiven
  · left
    rw [handleFeedback_given ty now resp s h]
  · have h' : s.feedbackGiven = false := by simpa using h
    by_cases hd : round2 (s.agentScore + deltaOf ty) ≤ DEATH_THRESHOLD
    · right
      rw [handleFeedback_death_eq ty now resp s h' hd]
      simp [handleAgentDeath, postFeedbackState]
    · left
      obtain ⟨i, ml, o, e⟩ := handleFeedback_not_death ty now resp s h' hd
      rw [e]
      simp [postFeedbackState]

/-- The bounded buffer never grows past five entries. -/
lemma handleFeedback_history_length (ty now : String)
    (resp : Except Unit (Option String)) (s : AgentState)
    (hh : s.history.length ≤ 5) :
    (handleFeedback ty now resp s).history.length ≤ 5 := by
  by_cases h : s.feedbackGiven
  · rw [handleFeedback_given ty now resp s h]
    exact hh
  · have h' : s.feedbackGiven = false := by simpa using h
    by_cases hd : round2 (s.agentScore + deltaOf ty) ≤ DEATH_THRESHOLD
    · rw [handleFeedback_death_eq ty now resp s h' hd]
      simp [handleAgentDeath]
    · obtain ⟨i, ml, o, e⟩ := handleFeedback_not_death ty now resp s h' hd
      rw [e]
      simp [postFeedbackState]

/-- Truncating the second summand before appending does not change a
truncated append. -/
lemma take_append_take {α : Type} (a b : List α) (n : ℕ) :
    (a ++ b.take n).take n = (a ++ b).take n := by
  rw [List.take_append_eq_append_take, List.take_append_eq_append_take,
    List.take_take]
  congr 1
  rw [min_eq_left (Nat.sub_le n a.length)]

/-! ## A trace model for feedback sequences

One "round" is: a new prompt is generated for the pending concept —
re-opening the one-feedback-per-prompt guard, which is the only ledger
effect of `generatePrompt` relevant to the history buffer — and then one
feedback event is applied through `handleFeedback`. -/

/-- One feedback event of a trace: the label clicked, the wall-clock
timestamp, and the response the optimizer would receive if triggered. -/
structure FeedbackEvent where
  label : String
  now : String
  resp : Except Unit (Option String)

/-- One round: the guard re-opened by prompt generation
(`setFeedbackGiven(false)`, page.tsx line 291), then the feedback. -/
def feedbackRound (s : AgentState) (e : FeedbackEvent) : AgentState :=
  handleFeedback e.label e.now e.resp { s with feedbackGiven := false }

/-- A whole trace of feedback rounds. -/
def runFeedbacks (evs : List FeedbackEvent) (s : AgentState) : AgentState :=
  evs.foldl feedbackRound s

/-- The history record a round appends, as a function of the pre-state. -/
def itemOf (s : AgentState) (e : FeedbackEvent) : HistoryItem :=
  { concept := s.userConcept
    prompt := s.generatedPrompt
    feedback := feedbackTextOf e.label
    scoreChange := deltaOf e.label
    timestamp := e.now }

lemma runFeedbacks_nil (s : AgentState) : runFeedbacks [] s = s := rfl

lemma runFeedbacks_cons (e : FeedbackEvent) (evs : List FeedbackEvent)
    (s : AgentState) :
    runFeedbacks (e :: evs) s = runFeedbacks evs (feedbackRound s e) := rfl

lemma feedbackRound_generation (s : AgentState) (e : FeedbackEvent) :
    (feedbackRound s e).agentGeneration = s.agentGeneration ∨
    (feedbackRound s e).agentGeneration = s.agentGeneration + 1 := by
  simpa [feedbackRound] using
    handleFeedback_generation e.label e.now e.resp { s with feedbackGiven := false }

lemma runFeedbacks_generation_le (evs : List FeedbackEvent) (s : AgentState) :
    s.agentGeneration ≤ (runFeedbacks evs s).agentGeneration := by
  induction evs generalizing s with
  | nil => simp [runFeedbacks]
  | cons e evs ih =>
    rw [runFeedbacks_cons]
    have h := ih (feedbackRound s e)
    rcases feedbackRound_generation s e with hg | hg <;> omega

/-- A round that leaves the generation unchanged did not take the death
path: it appended exactly one record and preserved the prompt context. -/
lemma feedbackRound_not_death (s : AgentState) (e : FeedbackEvent)
    (hg : (feedbackRound s e).agentGeneration = s.agentGeneration) :
    (feedbackRound s e).history = (itemOf s e :: s.history).take 5 ∧
    (feedbackRound s e).userConcept = s.userConcept ∧
    (feedbackRound s e).generatedPrompt = s.generatedPrompt := by
  by_cases hd : round2 (AgentState.agentScore { s with feedbackGiven := false } +
      deltaOf e.label) ≤ DEATH_THRESHOLD
  · exfalso
    rw [feedbackRound,
      handleFeedback_death_eq e.label e.now e.resp _ rfl hd] at hg
    simp [handleAgentDeath, postFeedbackState] at hg
  · obtain ⟨i, ml, o, heq⟩ :=
      handleFeedback_not_death e.label e.now e.resp _ rfl hd
    rw [feedbackRound, heq]
    simp [postFeedbackState, feedbackItem, itemOf]

/-- Generation-preserving traces from a short buffer: the final buffer is
the five most recent records, most recent first. -/
lemma runFeedbacks_spec (evs : List FeedbackEvent) (s : AgentState)
    (hlen : s.history.length ≤ 5)
    (hg : (runFeedbacks evs s).agentGeneration = s.agentGeneration) :
    (runFeedbacks evs s).history =
      ((evs.map (itemOf s)).reverse ++ s.history).take 5 ∧
    (runFeedbacks evs s).userConcept = s.userConcept ∧
    (runFeedbacks evs s).generatedPrompt = s.generatedPrompt := by
  induction evs generalizing s with
  | nil =>
    refine ⟨?_, rfl, rfl⟩
    simp [runFeedbacks, List.take_of_length_le hlen]
  | cons e evs ih =>
    rw [runFeedbacks_cons] at hg ⊢
    have hround : (feedbackRound s e).agentGeneration = s.agentGeneration := by
      have h1 := runFeedbacks_generation_le evs (feedbackRound s e)
      rcases feedbackRound_generation s e with h2 | h2 <;> omega
    obtain ⟨hhist, hconc, hprompt⟩ := feedbackRound_not_death s e hround
    have hlen' : (feedbackRound s e).history.length ≤ 5 := by
      rw [hhist]
      simp
    have hg' : (runFeedbacks evs (feedbackRound s e)).agentGeneration =
        (feedbackRound s e).agentGeneration := by
      rw [hround, hg]
    obtain ⟨ih1, ih2, ih3⟩ := ih (feedbackRound s e) hlen' hg'
    have hitem : itemOf (feedbackRound s e) = itemOf s := by
      funext e'
      simp [itemOf, hconc, hprompt]
    refine ⟨?_, by rw [ih2, hconc], by rw [ih3, hprompt]⟩
    rw [ih1, hitem, hhist, take_append_take]
    simp [List.append_assoc]

/-! ## The claims -/

/-- The four reactive outcomes of one feedback application. -/
inductive Reaction where
  | death : Reaction
  | panicTrigger : Reaction
  | hubrisTrigger : Reaction
  | stable : Reaction
deriving DecidableEq

/-- The spec's derived classification of a feedback outcome, written as the
spec words it: death if the new score is at most the death threshold
(superseding everything), else panic trigger if at most the panic threshold
on a negative delta, else hubris trigger if at least the hubris threshold
on a positive delta, else stable. -/
def specClassification (newScore delta : ℚ) : Reaction :=
  if newScore ≤ DEATH_THRESHOLD then Reaction.death
  else if newScore ≤ PANIC_THRESHOLD ∧ delta < 0 then Reaction.panicTrigger
  else if HUBRIS_THRESHOLD ≤ newScore ∧ 0 < delta then Reaction.hubrisTrigger
  else Reaction.stable

/-- A concrete state used to instantiate the theorems on explicit inputs. -/
def demoState : AgentState :=
  { apiKey := "k"
    userConcept := "cat"
    generatedPrompt := "a cat"
    isGenerating := false
    optimizationState := none
    feedbackGiven := false
    copied := false
    agentScore := 7
    agentGeneration := 1
    systemInstruction := "inst"
    history := []
    graveyard := []
    mutationLog := [] }

/-- Claim C1: for every accepted feedback application exactly one reactive
path runs, and it is the one selected by the derived classification of the
new score and the applied delta — death (which supersedes the other
checks via the early return), else panic on a low score with negative
delta, else hubris on a high score with positive delta, else no reaction
at all (the state is just the post-feedback ledger update). -/
theorem c1_exactly_one_reactive_path (ty now : String)
    (resp : Except Unit (Option String)) (s : AgentState)
    (h : s.feedbackGiven = false) :
    handleFeedback ty now resp s =
      (match specClassification (round2 (s.agentScore + deltaOf ty)) (deltaOf ty) with
       | Reaction.death =>
         handleAgentDeath (round2 (s.agentScore + deltaOf ty))
           ((feedbackItem ty now s :: s.history).take 5) now
           (postFeedbackState ty now s)
       | Reaction.panicTrigger =>
         optimizeAgentBrain (round2 (s.agentScore + deltaOf ty))
           ((feedbackItem ty now s :: s.history).take 5) Mode.panic resp now
           (postFeedbackState ty now s)
       | Reaction.hubrisTrigger =>
         optimizeAgentBrain (round2 (s.agentScore + deltaOf ty))
           ((feedbackItem ty now s :: s.history).take 5) Mode.hubris resp now
           (postFeedbackState ty now s)
       | Reaction.stable => postFeedbackState ty now s) := by
  rw [handleFeedback_unfold ty now resp s h]
  unfold specClassification
  by_cases hd : round2 (s.agentScore + deltaOf ty) ≤ DEATH_THRESHOLD
  · simp only [if_pos hd]
  · simp only [if_neg hd]
    by_cases hp : round2 (s.agentScore + deltaOf ty) ≤ PANIC_THRESHOLD ∧ deltaOf ty < 0
    · have hhub : ¬ (HUBRIS_THRESHOLD ≤ round2 (s.agentScore + deltaOf ty) ∧
          0 < deltaOf ty) := by
        rintro ⟨h1, _⟩
        have h2 := hp.1
        rw [PANIC_THRESHOLD] at h2
        rw [HUBRIS_THRESHOLD] at h1
        linarith
      simp only [if_pos hp, if_neg hhub]
    · by_cases hh : HUBRIS_THRESHOLD ≤ round2 (s.agentScore + deltaOf ty) ∧
          0 < deltaOf ty
      · simp only [if_neg hp, if_pos hh]
      · simp only [if_neg hp, if_neg hh]

/-- Witness for C1 at score 6.2 with label `bad` (new score 5.7): the
classification is the panic trigger and the state steps into exactly the
panic optimization path. -/
theorem c1_witness :
    specClassification
        (round2 (AgentState.agentScore { demoState with agentScore := 31 / 5 } +
          deltaOf "bad")) (deltaOf "bad") = Reaction.panicTrigger ∧
    handleFeedback "bad" "t1" (Except.error ())
        { demoState with agentScore := 31 / 5 } =
      (match specClassification
          (round2 (AgentState.agentScore { demoState with agentScore := 31 / 5 } +
            deltaOf "bad")) (deltaOf "bad") with
       | Reaction.death =>
         handleAgentDeath
           (round2 (AgentState.agentScore { demoState with agentScore := 31 / 5 } +
             deltaOf "bad"))
           ((feedbackItem "bad" "t1" { demoState with agentScore := 31 / 5 } ::
             AgentState.history { demoState with agentScore := 31 / 5 }).take 5) "t1"
           (postFeedbackState "bad" "t1" { demoState with agentScore := 31 / 5 })
       | Reaction.panicTrigger =>
         optimizeAgentBrain
           (round2 (AgentState.agentScore { demoState with agentScore := 31 / 5 } +
             deltaOf "bad"))
           ((feedbackItem "bad" "t1" { demoState with agentScore := 31 / 5 } ::
             AgentState.history { demoState with agentScore := 31 / 5 }).take 5)
           Mode.panic (Except.error ()) "t1"
           (postFeedbackState "bad" "t1" { demoState with agentScore := 31 / 5 })
       | Reaction.hubrisTrigger =>
         optimizeAgentBrain
           (round2 (AgentState.agentScore { demoState with agentScore := 31 / 5 } +
             deltaOf "bad"))
           ((feedbackItem "bad" "t1" { demoState with agentScore := 31 / 5 } ::
             AgentState.history { demoState with agentScore := 31 / 5 }).take 5)
           Mode.hubris (Except.error ()) "t1"
           (postFeedbackState "bad" "t1" { demoState with agentScore := 31 / 5 })
       | Reaction.stable =>
         postFeedbackState "bad" "t1" { demoState with agentScore := 31 / 5 }) := by
  constructor
  · rw [show deltaOf "bad" = -(1 / 2) from rfl,
      show AgentState.agentScore { demoState with agentScore := 31 / 5 } = 31 / 5 from rfl,
      show ((31 : ℚ) / 5 + -(1 / 2)) = ((570 : ℤ) : ℚ) / 100 by norm_num,
      round2_hundredths]
    unfold specClassification
    rw [if_neg (by rw [DEATH_THRESHOLD]; norm_num),
      if_pos (by rw [PANIC_THRESHOLD]; norm_num)]
  · exact c1_exactly_one_reactive_path "bad" "t1" (Except.error ())
      { demoState with agentScore := 31 / 5 } rfl

/-- Claim C2: for every recognized label applied to a pending prompt the
new score is the previous score plus the label's fixed delta (blocked and
bad both −0.5, good and excellent both +0.3) rounded to two decimals, and
no clamping to [0,10] is applied: above the death threshold the rounded
sum persists as the score even beyond 10, and at or below it the rounded
sum — even a negative one — is recorded unclamped as the dying
generation's final score. -/
theorem c2_score_update (ty now : String) (resp : Except Unit (Option String))
    (s : AgentState) (h : s.feedbackGiven = false)
    (_hrec : ty = "blocked" ∨ ty = "bad" ∨ ty = "good" ∨ ty = "excellent") :
    (deltaOf "blocked" = -(1 / 2) ∧ deltaOf "bad" = -(1 / 2) ∧
      deltaOf "good" = 3 / 10 ∧ deltaOf "excellent" = 3 / 10) ∧
    (¬ round2 (s.agentScore + deltaOf ty) ≤ DEATH_THRESHOLD →
      (handleFeedback ty now resp s).agentScore =
        round2 (s.agentScore + deltaOf ty)) ∧
    (round2 (s.agentScore + deltaOf ty) ≤ DEATH_THRESHOLD →
      (handleFeedback ty now resp s).graveyard.head?.map
          (fun g => g.finalScore) = some (round2 (s.agentScore + deltaOf ty))) := by
  refine ⟨⟨rfl, rfl, rfl, rfl⟩, ?_, ?_⟩
  · intro hnd
    obtain ⟨i, ml, o, e⟩ := handleFeedback_not_death ty now resp s h hnd
    rw [e]
    simp [postFeedbackState]
  · intro hd
    rw [handleFeedback_death_eq ty now resp s h hd]
    simp [handleAgentDeath, postFeedbackState]

/-- Witness for C2: from score 9.9 a `good` yields 10.2, above 10 and
unclamped; from score 0.2 a `bad` yields −0.3, recorded unclamped and
negative as the final score of the dying generation. -/
theorem c2_witness :
    ((handleFeedback "good" "t1" (Except.error ())
        { demoState with agentScore := 99 / 10 }).agentScore = 51 / 5 ∧
      (10 : ℚ) < 51 / 5) ∧
    ((handleFeedback "bad" "t1" (Except.error ())
        { demoState with agentScore := 1 / 5 }).graveyard.head?.map
          (fun g => g.finalScore) = some (-(3 / 10)) ∧
      (-(3 / 10) : ℚ) < 0) := by
  have e1 : round2 (AgentState.agentScore { demoState with agentScore := 99 / 10 } +
      deltaOf "good") = 51 / 5 := by
    rw [show deltaOf "good" = 3 / 10 from rfl,
      show AgentState.agentScore { demoState with agentScore := 99 / 10 } = 99 / 10 from rfl,
      show ((99 : ℚ) / 10 + 3 / 10) = ((1020 : ℤ) : ℚ) / 100 by norm_num,
      round2_hundredths]
    norm_num
  have e2 : round2 (AgentState.agentScore { demoState with agentScore := 1 / 5 } +
      deltaOf "bad") = -(3 / 10) := by
    rw [show deltaOf "bad" = -(1 / 2) from rfl,
      show AgentState.agentScore { demoState with agentScore := 1 / 5 } = 1 / 5 from rfl,
      show ((1 : ℚ) / 5 + -(1 / 2)) = ((-30 : ℤ) : ℚ) / 100 by norm_num,
      round2_hundredths]
    norm_num
  constructor
  · constructor
    · have hs := (c2_score_update "good" "t1" (Except.error ())
          { demoState with agentScore := 99 / 10 } rfl
          (Or.inr (Or.inr (Or.inl rfl)))).2.1
          (by rw [e1, DEATH_THRESHOLD]; norm_num)
      rw [hs, e1]
    · norm_num
  · constructor
    · have hs := (c2_score_update "bad" "t1" (Except.error ())
          { demoState with agentScore := 1 / 5 } rfl
          (Or.inr (Or.inl rfl))).2.2
          (by rw [e2, DEATH_THRESHOLD]; norm_num)
      rw [hs, e2]
    · norm_num

/-- Claim C3: a death-triggering feedback performs the full respawn reset:
score 7.0, generation exactly +1, empty history, empty mutation log, the
fixed default instruction restored, and the pending prompt context
(generated prompt, concept, guard) cleared; moreover no feedback
application ever decreases the generation or skips a value — it changes
by 0 or exactly 1. -/
theorem c3_death_respawn (ty now : String) (resp : Except Unit (Option String))
    (s : AgentState) (h : s.feedbackGiven = false)
    (hd : round2 (s.agentScore + deltaOf ty) ≤ DEATH_THRESHOLD) :
    (handleFeedback ty now resp s).agentScore = STARTING_SCORE ∧
    (handleFeedback ty now resp s).agentGeneration = s.agentGeneration + 1 ∧
    (handleFeedback ty now resp s).history = [] ∧
    (handleFeedback ty now resp s).mutationLog = [] ∧
    (handleFeedback ty now resp s).systemInstruction = DEFAULT_SYSTEM_INSTRUCTION ∧
    (handleFeedback ty now resp s).generatedPrompt = "" ∧
    (handleFeedback ty now resp s).userConcept = "" ∧
    (handleFeedback ty now resp s).feedbackGiven = false ∧
    (∀ ty2 now2 resp2 s2,
      (handleFeedback ty2 now2 resp2 s2).agentGeneration = s2.agentGeneration ∨
      (handleFeedback ty2 now2 resp2 s2).agentGeneration = s2.agentGeneration + 1) := by
  rw [handleFeedback_death_eq ty now resp s h hd]
  refine ⟨?_, ?_, ?_, ?_, ?_, ?_, ?_, ?_, handleFeedback_generation⟩ <;>
    simp [handleAgentDeath, postFeedbackState]

/-- Witness for C3 at score 5.3 with label `blocked` (new score 4.8): the
respawned state has score 7.0, generation 2, empty buffers type-reset
prompt context and the default instruction. -/
theorem c3_witness :
    (handleFeedback "blocked" "t1" (Except.error ())
        { demoState with agentScore := 53 / 10 }).agentScore = STARTING_SCORE ∧
    (handleFeedback "blocked" "t1" (Except.error ())
        { demoState with agentScore := 53 / 10 }).agentGeneration = 2 ∧
    (handleFeedback "blocked" "t1" (Except.error ())
        { demoState with agentScore := 53 / 10 }).history = [] ∧
    (handleFeedback "blocked" "t1" (Except.error ())
        { demoState with agentScore := 53 / 10 }).mutationLog = [] ∧
    (handleFeedback "blocked" "t1" (Except.error ())
        { demoState with agentScore := 53 / 10 }).systemInstruction =
      DEFAULT_SYSTEM_INSTRUCTION ∧
    (handleFeedback "blocked" "t1" (Except.error ())
        { demoState with agentScore := 53 / 10 }).generatedPrompt = "" ∧
    (handleFeedback "blocked" "t1" (Except.error ())
        { demoState with agentScore := 53 / 10 }).userConcept = "" ∧
    (handleFeedback "blocked" "t1" (Except.error ())
        { demoState with agentScore := 53 / 10 }).feedbackGiven = false := by
  have hd : round2 (AgentState.agentScore { demoState with agentScore := 53 / 10 } +
      deltaOf "blocked") ≤ DEATH_THRESHOLD := by
    rw [show deltaOf "blocked" = -(1 / 2) from rfl,
      show AgentState.agentScore { demoState with agentScore := 53 / 10 } = 53 / 10 from rfl,
      show ((53 : ℚ) / 10 + -(1 / 2)) = ((480 : ℤ) : ℚ) / 100 by norm_num,
      round2_hundredths, DEATH_THRESHOLD]
    norm_num
  obtain ⟨a1, a2, a3, a4, a5, a6, a7, a8, _⟩ :=
    c3_death_respawn "blocked" "t1" (Except.error ())
      { demoState with agentScore := 53 / 10 } rfl hd
  exact ⟨a1, by rw [a2]; rfl, a3, a4, a5, a6, a7, a8⟩

/-- Claim C9: a second feedback on the same pending prompt — no death
cleared the prompt context in between, no new prompt was generated — is
rejected outright: the whole state (in particular score, history and
generation) is exactly what it was after the first call. -/
theorem c9_second_feedback_rejected (ty now : String)
    (resp : Except Unit (Option String)) (ty2 now2 : String)
    (resp2 : Except Unit (Option String)) (s : AgentState)
    (h : s.feedbackGiven = false)
    (hnd : ¬ round2 (s.agentScore + deltaOf ty) ≤ DEATH_THRESHOLD) :
    handleFeedback ty2 now2 resp2 (handleFeedback ty now resp s) =
      handleFeedback ty now resp s := by
  obtain ⟨i, ml, o, e⟩ := handleFeedback_not_death ty now resp s h hnd
  apply handleFeedback_given
  rw [e]
  simp [postFeedbackState]

/-- Witness for C9: after a `good` on the demo state, a following `bad`
without a new prompt generation changes nothing. -/
theorem c9_witness :
    handleFeedback "bad" "t2" (Except.error ())
        (handleFeedback "good" "t1" (Except.error ()) demoState) =
      handleFeedback "good" "t1" (Except.error ()) demoState := by
  apply c9_second_feedback_rejected "good" "t1" (Except.error ()) "bad" "t2"
    (Except.error ()) demoState rfl
  rw [show deltaOf "good" = 3 / 10 from rfl,
    show AgentState.agentScore demoState = 7 from rfl,
    show ((7 : ℚ) + 3 / 10) = ((730 : ℤ) : ℚ) / 100 by norm_num,
    round2_hundredths, DEATH_THRESHOLD]
  norm_num

/-- Claim C5: after a successful mutation (non-empty returned text, with a
credential and non-empty relevant evidence) the active instruction equals
the `newInstruction` of the most recently appended mutation record, and
that record captures the before/after pair, the mode, the generation and
the triggering score; after a failed mutation (transport error, missing or
empty text) the instruction is unchanged, no record is created, and the
suspension flag is still released. -/
theorem c5_mutation_atomicity (currentScore : ℚ)
    (currentHistory : List HistoryItem) (mode : Mode) (now : String)
    (s : AgentState) :
    (∀ t, t ≠ "" → s.apiKey ≠ "" →
      relevantHistoryFor mode currentHistory ≠ [] →
      (optimizeAgentBrain currentScore currentHistory mode
          (Except.ok (some t)) now s).systemInstruction = t ∧
      (optimizeAgentBrain currentScore currentHistory mode
          (Except.ok (some t)) now s).mutationLog =
        { gen := s.agentGeneration
          mode := mode
          score := currentScore
          timestamp := now
          oldInstruction := s.systemInstruction
          newInstruction := t } :: s.mutationLog ∧
      (optimizeAgentBrain currentScore currentHistory mode
          (Except.ok (some t)) now s).optimizationState = none) ∧
    (∀ resp, resp = Except.error () ∨ resp = Except.ok none ∨
        resp = Except.ok (some "") →
      (optimizeAgentBrain currentScore currentHistory mode resp now
          s).systemInstruction = s.systemInstruction ∧
      (optimizeAgentBrain currentScore currentHistory mode resp now
          s).mutationLog = s.mutationLog ∧
      (s.apiKey ≠ "" →
        (optimizeAgentBrain currentScore currentHistory mode resp now
          s).optimizationState = none)) := by
  constructor
  · intro t ht hk hr
    simp only [optimizeAgentBrain]
    rw [if_neg hk, if_neg hr, if_neg ht]
    exact ⟨rfl, rfl, rfl⟩
  · intro resp hresp
    by_cases hk : s.apiKey = ""
    · refine ⟨?_, ?_, fun hk2 => absurd hk hk2⟩ <;>
        · simp only [optimizeAgentBrain]
          rw [if_pos hk]
    · rcases hresp with rfl | rfl | rfl <;>
        · simp only [optimizeAgentBrain]
          rw [if_neg hk]
          by_cases hr : relevantHistoryFor mode currentHistory = []
          · rw [if_pos hr]
            exact ⟨rfl, rfl, fun _ => rfl⟩
          · rw [if_neg hr]
            try rw [if_pos rfl]
            exact ⟨rfl, rfl, fun _ => rfl⟩

/-- A concrete negative-delta history record for the witnesses. -/
def wNegItem : HistoryItem :=
  { concept := "c0"
    prompt := "p0"
    feedback := "Unsatisfactory image."
    scoreChange := -(1 / 2)
    timestamp := "t0" }

/-- Witness for C5: on the demo state with one negative record, a panic
mutation returning `"newI"` swaps the instruction and prepends the
matching record, while a transport error changes neither. -/
theorem c5_witness :
    ((optimizeAgentBrain 6 [wNegItem] Mode.panic (Except.ok (some "newI"))
        "t1" demoState).systemInstruction = "newI" ∧
      (optimizeAgentBrain 6 [wNegItem] Mode.panic (Except.ok (some "newI"))
        "t1" demoState).mutationLog =
        [{ gen := 1, mode := Mode.panic, score := 6, timestamp := "t1",
           oldInstruction := "inst", newInstruction := "newI" }] ∧
      (optimizeAgentBrain 6 [wNegItem] Mode.panic (Except.ok (some "newI"))
        "t1" demoState).optimizationState = none) ∧
    ((optimizeAgentBrain 6 [wNegItem] Mode.panic (Except.error ())
        "t1" demoState).systemInstruction = "inst" ∧
      (optimizeAgentBrain 6 [wNegItem] Mode.panic (Except.error ())
        "t1" demoState).mutationLog = []) := by
  have hrel : relevantHistoryFor Mode.panic [wNegItem] ≠ [] := by
    have hpos : (-(1 / 2) : ℚ) < 0 := by norm_num
    simp [relevantHistoryFor, wNegItem, hpos]
  constructor
  · obtain ⟨h1, h2, h3⟩ :=
      (c5_mutation_atomicity 6 [wNegItem] Mode.panic "t1" demoState).1 "newI"
        (by decide) (by decide) hrel
    exact ⟨h1, h2.trans rfl, h3⟩
  · obtain ⟨h1, h2, _⟩ :=
      (c5_mutation_atomicity 6 [wNegItem] Mode.panic "t1" demoState).2
        (Except.error ()) (Or.inl rfl)
    exact ⟨h1.trans rfl, h2.trans rfl⟩

/-- The graveyard after `handleAgentDeath`: exactly one new marker,
computed from the final history and score, prepended to the archive. -/
lemma handleAgentDeath_graveyard (f : ℚ) (hist : List HistoryItem)
    (now : String) (s : AgentState) :
    (handleAgentDeath f hist now s).graveyard =
      { generation := s.agentGeneration
        finalScore := f
        causeOfDeath :=
          match hist.head? with
          | some h => if h.feedback = "" then "Unknown" else h.feedback
          | none => "Unknown"
        livedAt := now
        bestPrompt :=
          match hist.find? (fun h => decide (h.scoreChange > 0)) with
          | some h => if h.prompt = "" then "None" else h.prompt
          | none => "None"
        finalInstruction := s.systemInstruction } :: s.graveyard := rfl

/-- Claim C7: a death-triggering feedback creates exactly one graveyard
record: its cause of death is the feedback text of the triggering (most
recent) history entry, its best-prompt field is the prompt of the most
recent positive-delta entry of the retained window (the sentinel if the
window has none), and the archive is append-only — the respawn keeps every
earlier marker, and no feedback application ever removes one. -/
theorem c7_graveyard_record (ty now : String) (resp : Except Unit (Option String))
    (s : AgentState) (h : s.feedbackGiven = false)
    (hd : round2 (s.agentScore + deltaOf ty) ≤ DEATH_THRESHOLD)
    (ht : feedbackTextOf ty ≠ "") :
    (∃ g, (handleFeedback ty now resp s).graveyard = g :: s.graveyard ∧
      g.causeOfDeath = feedbackTextOf ty ∧
      g.finalScore = round2 (s.agentScore + deltaOf ty) ∧
      g.finalInstruction = s.systemInstruction ∧
      g.generation = s.agentGeneration ∧
      (∀ h2, ((feedbackItem ty now s :: s.history).take 5).find?
          (fun x => decide (x.scoreChange > 0)) = some h2 →
        h2.prompt ≠ "" → g.bestPrompt = h2.prompt) ∧
      (((feedbackItem ty now s :: s.history).take 5).find?
          (fun x => decide (x.scoreChange > 0)) = none →
        g.bestPrompt = "None")) ∧
    (∀ ty2 now2 resp2 s2,
      s2.graveyard <:+ (handleFeedback ty2 now2 resp2 s2).graveyard) ∧
    (∀ c hist m r now2 s2,
      (optimizeAgentBrain c hist m r now2 s2).graveyard = s2.graveyard) := by
  refine ⟨?_, ?_, ?_⟩
  · rw [handleFeedback_death_eq ty now resp s h hd, handleAgentDeath_graveyard]
    have hhead : ((feedbackItem ty now s :: s.history).take 5).head? =
        some (feedbackItem ty now s) := rfl
    refine ⟨_, rfl, ?_, rfl, rfl, rfl, ?_, ?_⟩
    · show (match ((feedbackItem ty now s :: s.history).take 5).head? with
        | some h2 => if h2.feedback = "" then "Unknown" else h2.feedback
        | none => "Unknown") = feedbackTextOf ty
      rw [hhead]
      exact if_neg ht
    · intro h2 hf hp
      show (match ((feedbackItem ty now s :: s.history).take 5).find?
          (fun x => decide (x.scoreChange > 0)) with
        | some h3 => if h3.prompt = "" then "None" else h3.prompt
        | none => "None") = h2.prompt
      rw [hf]
      exact if_neg hp
    · intro hf
      show (match ((feedbackItem ty now s :: s.history).take 5).find?
          (fun x => decide (x.scoreChange > 0)) with
        | some h3 => if h3.prompt = "" then "None" else h3.prompt
        | none => "None") = "None"
      rw [hf]
  · intro ty2 now2 resp2 s2
    by_cases h2 : s2.feedbackGiven
    · rw [handleFeedback_given ty2 now2 resp2 s2 h2]
    · have h2' : s2.feedbackGiven = false := by simpa using h2
      by_cases hd2 : round2 (s2.agentScore + deltaOf ty2) ≤ DEATH_THRESHOLD
      · rw [handleFeedback_death_eq ty2 now2 resp2 s2 h2' hd2,
          handleAgentDeath_graveyard]
        exact List.suffix_cons _ _
      · obtain ⟨i, ml, o, e⟩ := handleFeedback_not_death ty2 now2 resp2 s2 h2' hd2
        rw [e]
        exact List.suffix_refl s2.graveyard
  · intro c hist m r now2 s2
    obtain ⟨i, ml, o, e⟩ := optimizeAgentBrain_eq c hist m r now2 s2
    rw [e]

/-- A concrete positive-delta history record for the witnesses. -/
def wPosItem : HistoryItem :=
  { concept := "c0"
    prompt := "good prompt"
    feedback := "Satisfactory image."
    scoreChange := 3 / 10
    timestamp := "t0" }

/-- Witness for C7: dying at 4.8 by `blocked` with one positive record in
the window yields exactly one marker, with the blocking feedback as cause
of death and the positive record's prompt as the legacy prompt. -/
theorem c7_witness :
    (handleFeedback "blocked" "t1" (Except.error ())
        { demoState with agentScore := 53 / 10, history := [wPosItem] }).graveyard.head?.map
        (fun g => g.causeOfDeath) = some "Blocked by safety filters." ∧
    (handleFeedback "blocked" "t1" (Except.error ())
        { demoState with agentScore := 53 / 10, history := [wPosItem] }).graveyard.head?.map
        (fun g => g.bestPrompt) = some "good prompt" ∧
    (handleFeedback "blocked" "t1" (Except.error ())
        { demoState with agentScore := 53 / 10, history := [wPosItem] }).graveyard.length = 1 := by
  have hd : round2 (AgentState.agentScore
      { demoState with agentScore := 53 / 10, history := [wPosItem] } +
      deltaOf "blocked") ≤ DEATH_THRESHOLD := by
    rw [show deltaOf "blocked" = -(1 / 2) from rfl,
      show AgentState.agentScore
        { demoState with agentScore := 53 / 10, history := [wPosItem] } =
        53 / 10 from rfl,
      show ((53 : ℚ) / 10 + -(1 / 2)) = ((480 : ℤ) : ℚ) / 100 by norm_num,
      round2_hundredths, DEATH_THRESHOLD]
    norm_num
  obtain ⟨⟨g, hcons, hcause, _, _, _, hsome, _⟩, _, _⟩ :=
    c7_graveyard_record "blocked" "t1" (Except.error ())
      { demoState with agentScore := 53 / 10, history := [wPosItem] }
      rfl hd (by decide)
  have d1 : decide (deltaOf "blocked" > 0) = false := by
    simp only [decide_eq_false_iff_not]
    rw [show deltaOf "blocked" = -(1 / 2) from rfl]
    norm_num
  have d2 : decide (((3 : ℚ) / 10) > 0) = true := by
    simp only [decide_eq_true_eq]
    norm_num
  have hfind : ((feedbackItem "blocked" "t1"
      { demoState with agentScore := 53 / 10, history := [wPosItem] } ::
      AgentState.history
        { demoState with agentScore := 53 / 10, history := [wPosItem] }).take 5).find?
      (fun x => decide (x.scoreChange > 0)) = some wPosItem := by
    rw [show ((feedbackItem "blocked" "t1"
        { demoState with agentScore := 53 / 10, history := [wPosItem] } ::
        AgentState.history
          { demoState with agentScore := 53 / 10, history := [wPosItem] }).take 5) =
      feedbackItem "blocked" "t1"
        { demoState with agentScore := 53 / 10, history := [wPosItem] } ::
        [wPosItem] from rfl]
    simp only [List.find?_cons,
      show (feedbackItem "blocked" "t1"
        { demoState with agentScore := 53 / 10, history := [wPosItem] }).scoreChange =
        deltaOf "blocked" from rfl,
      show wPosItem.scoreChange = (3 : ℚ) / 10 from rfl, d1, d2]
  have hbp := hsome wPosItem hfind (by decide)
  refine ⟨?_, ?_, ?_⟩
  · rw [hcons]
    simp [hcause, feedbackTextOf]
  · rw [hcons]
    simp [hbp, wPosItem]
  · rw [hcons]
    rfl

/-- From within capacity, no trace of feedback rounds ever pushes the
buffer past five entries. -/
lemma runFeedbacks_history_length (evs : List FeedbackEvent) (s : AgentState)
    (hh : s.history.length ≤ 5) :
    (runFeedbacks evs s).history.length ≤ 5 := by
  induction evs generalizing s with
  | nil => exact hh
  | cons e evs ih =>
    rw [runFeedbacks_cons]
    exact ih _ (handleFeedback_history_length e.label e.now e.resp _ hh)

/-- Claim C6: over any death-free sequence of accepted feedback
applications from an empty buffer, the history buffer is the
most-recent-first sequence of the applied events truncated at five, so its
length is `min 5 totalFeedbackCount`; and at every point of every such
trace the length stays at most 5 (the oldest entry is evicted on
overflow). -/
theorem c6_history_buffer (evs : List FeedbackEvent) (s : AgentState)
    (hemp : s.history = [])
    (hg : (runFeedbacks evs s).agentGeneration = s.agentGeneration) :
    (runFeedbacks evs s).history = ((evs.map (itemOf s)).reverse).take 5 ∧
    (runFeedbacks evs s).history.length = min 5 evs.length ∧
    (∀ n, (runFeedbacks (evs.take n) s).history.length ≤ 5) := by
  have hlen : s.history.length ≤ 5 := by rw [hemp]; simp
  obtain ⟨h1, _, _⟩ := runFeedbacks_spec evs s hlen hg
  rw [hemp] at h1
  simp only [List.append_nil] at h1
  refine ⟨h1, ?_, fun n => runFeedbacks_history_length (evs.take n) s hlen⟩
  rw [h1]
  simp [List.length_take, List.length_reverse, List.length_map]

/-- The feedback event used by the C6 witness. -/
def wEv1 : FeedbackEvent :=
  { label := "good", now := "t1", resp := Except.error () }

/-- Witness for C6: one `good` round on the demo state leaves exactly the
one matching record, of length `min 5 1`, within capacity. -/
theorem c6_witness :
    (runFeedbacks [wEv1] demoState).history =
      (([wEv1].map (itemOf demoState)).reverse).take 5 ∧
    (runFeedbacks [wEv1] demoState).history.length = min 5 1 ∧
    (runFeedbacks ([wEv1].take 1) demoState).history.length ≤ 5 := by
  have hnd : ¬ round2 (demoState.agentScore + deltaOf "good") ≤ DEATH_THRESHOLD := by
    rw [show deltaOf "good" = 3 / 10 from rfl,
      show demoState.agentScore = 7 from rfl,
      show ((7 : ℚ) + 3 / 10) = ((730 : ℤ) : ℚ) / 100 by norm_num,
      round2_hundredths, DEATH_THRESHOLD]
    norm_num
  have hg : (runFeedbacks [wEv1] demoState).agentGeneration =
      demoState.agentGeneration := by
    obtain ⟨i, ml, o, e⟩ :=
      handleFeedback_not_death "good" "t1" (Except.error ()) demoState rfl hnd
    rw [show runFeedbacks [wEv1] demoState =
      handleFeedback "good" "t1" (Except.error ()) demoState from rfl, e]
    simp [postFeedbackState]
  obtain ⟨c1, c2, c3⟩ := c6_history_buffer [wEv1] demoState rfl hg
  exact ⟨c1, c2, c3 1⟩

/-- The prompt text a generation attempt stores, as a function of the
response (page.tsx lines 320-325). -/
def promptTextOf (resp : Except String (Option String)) : String :=
  match resp with
  | Except.error msg =>
    "API Error: " ++ (if msg = "" then "Unknown error" else msg)
  | Except.ok (some text) => if text = "" then "Error" else text
  | Except.ok none => "Error"

/-- With a credential and a concept, a generation attempt always clears
the guard and stores the response-determined text — equally on success
and on failure. -/
lemma generatePrompt_run (resp : Except String (Option String)) (s : AgentState)
    (hk : s.apiKey ≠ "") (hc : s.userConcept ≠ "") :
    generatePrompt resp s =
      { s with
        generatedPrompt := promptTextOf resp
        isGenerating := false
        feedbackGiven := false
        copied := false } := by
  rcases resp with msg | (_ | t) <;>
    · simp only [generatePrompt, promptTextOf]
      rw [if_neg hk, if_neg hc]

/-- Claim C10: when prompt generation fails, the error string itself
(prefixed `API Error:`) becomes the current pending prompt and the
one-feedback-per-prompt guard is re-opened — as it is at the start of
every generation attempt, successful or not — so a subsequent feedback
lands with full score and history effect on the API error message. -/
theorem c10_error_prompt_feedback (msg now : String)
    (resp2 : Except Unit (Option String)) (s : AgentState)
    (hk : s.apiKey ≠ "") (hc : s.userConcept ≠ "")
    (hnd : ¬ round2 (s.agentScore + deltaOf "good") ≤ DEATH_THRESHOLD) :
    (generatePrompt (Except.error msg) s).generatedPrompt =
      "API Error: " ++ (if msg = "" then "Unknown error" else msg) ∧
    (generatePrompt (Except.error msg) s).feedbackGiven = false ∧
    (∀ resp3 : Except String (Option String),
      (generatePrompt resp3 s).feedbackGiven = false) ∧
    (handleFeedback "good" now resp2
        (generatePrompt (Except.error msg) s)).agentScore =
      round2 (s.agentScore + deltaOf "good") ∧
    (handleFeedback "good" now resp2
        (generatePrompt (Except.error msg) s)).history.head? =
      some { concept := s.userConcept
             prompt := "API Error: " ++ (if msg = "" then "Unknown error" else msg)
             feedback := "Satisfactory image."
             scoreChange := 3 / 10
             timestamp := now } := by
  have hrun := generatePrompt_run (Except.error msg) s hk hc
  have hfg : (generatePrompt (Except.error msg) s).feedbackGiven = false := by
    rw [hrun]
  have hnd' : ¬ round2 ((generatePrompt (Except.error msg) s).agentScore +
      deltaOf "good") ≤ DEATH_THRESHOLD := by
    rw [hrun]
    simpa using hnd
  obtain ⟨i, ml, o, e⟩ := handleFeedback_not_death "good" now resp2
    (generatePrompt (Except.error msg) s) hfg hnd'
  have htk : ∀ (a : HistoryItem) (l : List HistoryItem),
      ((a :: l).take 5).head? = some a := fun a l => rfl
  refine ⟨?_, hfg, ?_, ?_, ?_⟩
  · rw [hrun]
    rfl
  · intro resp3
    rw [generatePrompt_run resp3 s hk hc]
  · rw [e]
    simp only [postFeedbackState]
    simp [hrun]
  · rw [e]
    simp only [postFeedbackState]
    rw [htk]
    simp [feedbackItem, hrun, promptTextOf, feedbackTextOf, deltaOf]

/-- Witness for C10: on the demo state a failed generation with message
`boom` leaves the pending prompt `API Error: boom` with the guard open,
and a following `good` adds 0.3 and records the error text as the prompt
of the new history head. -/
theorem c10_witness :
    (generatePrompt (Except.error "boom") demoState).generatedPrompt =
      "API Error: boom" ∧
    (generatePrompt (Except.error "boom") demoState).feedbackGiven = false ∧
    (generatePrompt (Except.ok none) demoState).feedbackGiven = false ∧
    (handleFeedback "good" "t9" (Except.error ())
        (generatePrompt (Except.error "boom") demoState)).agentScore = 73 / 10 ∧
    (handleFeedback "good" "t9" (Except.error ())
        (generatePrompt (Except.error "boom") demoState)).history.head? =
      some { concept := "cat"
             prompt := "API Error: boom"
             feedback := "Satisfactory image."
             scoreChange := 3 / 10
             timestamp := "t9" } := by
  have hr : round2 (demoState.agentScore + deltaOf "good") = 73 / 10 := by
    rw [show deltaOf "good" = 3 / 10 from rfl,
      show demoState.agentScore = 7 from rfl,
      show ((7 : ℚ) + 3 / 10) = ((730 : ℤ) : ℚ) / 100 by norm_num,
      round2_hundredths]
    norm_num
  have hnd : ¬ round2 (demoState.agentScore + deltaOf "good") ≤ DEATH_THRESHOLD := by
    rw [hr, DEATH_THRESHOLD]
    norm_num
  obtain ⟨a1, a2, a3, a4, a5⟩ := c10_error_prompt_feedback "boom" "t9"
    (Except.error ()) demoState (by decide) (by decide) hnd
  refine ⟨by rw [a1]; rfl, a2, a3 (Except.ok none), by rw [a4, hr],
    by rw [a5]; rfl⟩

/-- Counterexample to C8 as stated: with a credential, a concept, and a
mutation in flight (`optimizationState` set), prompt generation is NOT
rejected — it proceeds and mutates the state (new pending prompt, guard
re-opened), because the core checks only the credential and the concept;
the in-flight exclusion lives solely in the UI button's disabling. -/
theorem c8_counterexample :
    AgentState.optimizationState
        { demoState with optimizationState := some Mode.panic, feedbackGiven := true } =
      some Mode.panic ∧
    generatePrompt (Except.ok (some "fresh"))
        { demoState with optimizationState := some Mode.panic, feedbackGiven := true } ≠
      { demoState with optimizationState := some Mode.panic, feedbackGiven := true } ∧
    (generatePrompt (Except.ok (some "fresh"))
        { demoState with optimizationState := some Mode.panic, feedbackGiven := true }).generatedPrompt = "fresh" ∧
    (generatePrompt (Except.ok (some "fresh"))
        { demoState with optimizationState := some Mode.panic, feedbackGiven := true }).feedbackGiven = false := by
  have hrun := generatePrompt_run (Except.ok (some "fresh"))
    { demoState with optimizationState := some Mode.panic, feedbackGiven := true }
    (by decide) (by decide)
  refine ⟨rfl, ?_, ?_, ?_⟩
  · rw [hrun]
    intro heq
    have h2 := congrArg AgentState.feedbackGiven heq
    simp [promptTextOf] at h2
  · rw [hrun]
    rfl
  · rw [hrun]

/-- Amended claim C8: prompt generation rejects invocation as a complete
no-op when no credential is configured or no concept is supplied; but the
core performs no mutation-in-flight check of its own — its behavior is
identical whatever `optimizationState` holds, so the in-flight exclusion
is enforced only by the UI disabling the generate control. -/
theorem c8_amended_preconditions :
    (∀ (resp : Except String (Option String)) (s : AgentState),
      s.apiKey = "" → generatePrompt resp s = s) ∧
    (∀ (resp : Except String (Option String)) (s : AgentState),
      s.userConcept = "" → generatePrompt resp s = s) ∧
    (∀ (resp : Except String (Option String)) (s : AgentState) (m : Option Mode),
      s.apiKey ≠ "" → s.userConcept ≠ "" →
      generatePrompt resp { s with optimizationState := m } =
        { generatePrompt resp s with optimizationState := m }) := by
  refine ⟨?_, ?_, ?_⟩
  · intro resp s hk
    simp only [generatePrompt]
    rw [if_pos hk]
  · intro resp s hc
    by_cases hk : s.apiKey = ""
    · simp only [generatePrompt]
      rw [if_pos hk]
    · simp only [generatePrompt]
      rw [if_neg hk, if_pos hc]
  · intro resp s m hk hc
    rw [generatePrompt_run resp { s with optimizationState := m } hk hc,
      generatePrompt_run resp s hk hc]

/-- Witness for the amended C8 at concrete inputs: the two genuine
precondition rejections, and insensitivity to an in-flight hubris
mutation. -/
theorem c8_amended_witness :
    generatePrompt (Except.ok (some "fresh")) { demoState with apiKey := "" } =
      { demoState with apiKey := "" } ∧
    generatePrompt (Except.ok (some "fresh")) { demoState with userConcept := "" } =
      { demoState with userConcept := "" } ∧
    generatePrompt (Except.ok (some "fresh"))
        { demoState with optimizationState := some Mode.hubris } =
      { generatePrompt (Except.ok (some "fresh")) demoState with
        optimizationState := some Mode.hubris } :=
  ⟨c8_amended_preconditions.1 (Except.ok (some "fresh"))
      { demoState with apiKey := "" } rfl,
   c8_amended_preconditions.2.1 (Except.ok (some "fresh"))
      { demoState with userConcept := "" } rfl,
   c8_amended_preconditions.2.2 (Except.ok (some "fresh")) demoState
      (some Mode.hubris) (by decide) (by decide)⟩

/-- Counterexample to C4 as stated: an unrecognized label (`frobnicate`)
is not a state-preserving no-op — on the demo state it appends a history
record and consumes the one-feedback-per-prompt guard. -/
theorem c4_counterexample :
    demoState.history.length = 0 ∧
    demoState.feedbackGiven = false ∧
    (handleFeedback "frobnicate" "t1" (Except.error ())
      demoState).history.length = 1 ∧
    (handleFeedback "frobnicate" "t1" (Except.error ())
      demoState).feedbackGiven = true := by
  have hnd : ¬ round2 (demoState.agentScore + deltaOf "frobnicate") ≤
      DEATH_THRESHOLD := by
    rw [show deltaOf "frobnicate" = 0 from rfl,
      show demoState.agentScore = 7 from rfl,
      show ((7 : ℚ) + 0) = ((700 : ℤ) : ℚ) / 100 by norm_num,
      round2_hundredths, DEATH_THRESHOLD]
    norm_num
  obtain ⟨i, ml, o, e⟩ := handleFeedback_not_death "frobnicate" "t1"
    (Except.error ()) demoState rfl hnd
  exact ⟨rfl, rfl, by rw [e]; rfl, by rw [e]; rfl⟩

/-- Amended claim C4: an unrecognized label falls through with delta 0, so
the score is unchanged and no death/panic/hubris reaction fires (given a
standing score above the death threshold, already at two decimals); but
the submission is not a full no-op — a history record with empty feedback
text and zero scoreChange is still appended (evicting on overflow) and
the one-feedback-per-prompt guard is still consumed. -/
theorem c4_unrecognized_label (ty now : String)
    (resp : Except Unit (Option String)) (s : AgentState)
    (h : s.feedbackGiven = false)
    (hur : ty ≠ "blocked" ∧ ty ≠ "bad" ∧ ty ≠ "good" ∧ ty ≠ "excellent")
    (hr2 : round2 s.agentScore = s.agentScore)
    (hnd : DEATH_THRESHOLD < s.agentScore) :
    handleFeedback ty now resp s =
      { s with
        history := ({ concept := s.userConcept
                      prompt := s.generatedPrompt
                      feedback := ""
                      scoreChange := 0
                      timestamp := now } :: s.history).take 5
        feedbackGiven := true } := by
  have hdelta : deltaOf ty = 0 := by
    simp [deltaOf, hur.1, hur.2.1, hur.2.2.1, hur.2.2.2]
  have htext : feedbackTextOf ty = "" := by
    simp [feedbackTextOf, hur.1, hur.2.1, hur.2.2.1, hur.2.2.2]
  have hns : round2 (s.agentScore + deltaOf ty) = s.agentScore := by
    rw [hdelta, add_zero, hr2]
  have hnd' : ¬ round2 (s.agentScore + deltaOf ty) ≤ DEATH_THRESHOLD := by
    rw [hns]
    exact not_le.mpr hnd
  have hpc : ¬ (round2 (s.agentScore + deltaOf ty) ≤ PANIC_THRESHOLD ∧
      deltaOf ty < 0) := by
    rw [hdelta]
    simp
  have hhc : ¬ (HUBRIS_THRESHOLD ≤ round2 (s.agentScore + deltaOf ty) ∧
      0 < deltaOf ty) := by
    rw [hdelta]
    simp
  rw [handleFeedback_unfold ty now resp s h, if_neg hnd', if_neg hhc, if_neg hpc]
  simp only [postFeedbackState, feedbackItem, htext, hdelta, add_zero, hr2]

/-- Witness for the amended C4: `frobnicate` on the demo state appends the
empty-feedback zero-delta record and closes the guard, changing nothing
else. -/
theorem c4_witness :
    handleFeedback "frobnicate" "t1" (Except.error ()) demoState =
      { demoState with
        history := ({ concept := demoState.userConcept
                      prompt := demoState.generatedPrompt
                      feedback := ""
                      scoreChange := 0
                      timestamp := "t1" } :: demoState.history).take 5
        feedbackGiven := true } := by
  have hr2 : round2 demoState.agentScore = demoState.agentScore := by
    rw [show demoState.agentScore = 7 from rfl,
      show (7 : ℚ) = ((700 : ℤ) : ℚ) / 100 by norm_num, round2_hundredths]
  have hnd : DEATH_THRESHOLD < demoState.agentScore := by
    rw [show demoState.agentScore = 7 from rfl, DEATH_THRESHOLD]
    norm_num
  exact c4_unrecognized_label "frobnicate" "t1" (Except.error ()) demoState rfl
    ⟨by decide, by decide, by decide, by decide⟩ hr2 hnd

end ImageAgent
